import Mathlib

set_option autoImplicit false

/-!
Shallow embedding of the rep4rep comment bot (src/src/index.js, with the
variant dispatcher of src/unnamed/part_000) and proofs about its session
lifecycle, comment dispatch loop and account store.

Network calls, timer delays and store writes are recorded as explicit
actions in a trace; the steam-user promise machinery of processAccount is
embedded as a step machine over delivered events.
-/

namespace RepBot

/-- Milliseconds in 24 hours: the `twentyFourHours` constant of the source. -/
def twentyFourHours : Nat := 24 * 60 * 60 * 1000

/-- Persisted account record, mirroring the field set of accounts.json
entries (`login`, `password`, `refreshToken`, `steamID`, `commentCounter`,
`lastComment`).  Timestamps are modelled as milliseconds since epoch. -/
structure AccountRecord where
  login : String
  password : Option String
  refreshToken : Option String
  steamID : Option String
  commentCounter : Option Nat
  lastComment : Option Nat
deriving DecidableEq, Repr

/-- The cool-down test performed both by `autoComment` and by `startWork`:
`lastComment` is set and `now - lastComment < twentyFourHours`.  JavaScript
computes a signed difference; for a future `lastComment` the signed
difference is negative hence below the window, and the truncated `Nat`
subtraction gives `0` which is also below the window, so the two agree. -/
def cooldownActive (a : AccountRecord) (now : Nat) : Bool :=
  match a.lastComment with
  | none => false
  | some t => decide (now - t < twentyFourHours)

/-- The four object literals this program ever passes to `updateAccount`. -/
inductive StoreUpdate where
  | setRefreshToken (tok : String)
  | resetCounter
  | rateLimitStamp (now : Nat)
  | stampLastComment (now : Nat)
deriving DecidableEq, Repr

/-- Effect of one `updateAccount` payload on the matched record
(`Object.assign` on the named fields). -/
def applyUpdate (r : AccountRecord) : StoreUpdate → AccountRecord
  | StoreUpdate.setRefreshToken tok => { r with refreshToken := some tok }
  | StoreUpdate.resetCounter => { r with commentCounter := some 0 }
  | StoreUpdate.rateLimitStamp n => { r with commentCounter := some 0, lastComment := some n }
  | StoreUpdate.stampLastComment n => { r with lastComment := some n }

/-- Outcome of one `community.postUserComment` callback, classified exactly
as the error-message tests of the source classify it. -/
inductive PostResult where
  | success
  | privacyRestricted
  | rateLimited
  | unknownError
deriving DecidableEq, Repr

/-- A failure the dispatcher retries: the privacy-settings message or an
unrecognized error (both `resolve(null)` branches of the source). -/
def transientFailure : PostResult → Bool
  | PostResult.privacyRestricted => true
  | PostResult.unknownError => true
  | _ => false

/-- One entry of the rep4rep profile listing: `steamId` and remote `id`. -/
structure SteamProfile where
  steamId : String
  id : Nat
deriving DecidableEq, Repr

/-- A task fetched from the remote API. -/
structure Task where
  taskId : Nat
  targetSteamProfileId : String
  requiredCommentText : String
  requiredCommentId : Nat
deriving DecidableEq, Repr

/-- Observable actions of a dispatcher run: network calls, store writes and
timer delays, in program order. -/
inductive Action where
  | fetchProfiles
  | addProfile (sid : String)
  | fetchTasks (pid : Option Nat)
  | postAttempt (target : String) (text : String)
  | completeTask (taskId : Nat) (commentId : Nat) (pid : Option Nat)
  | storeUpdate (login : String) (u : StoreUpdate)
  | sleep (ms : Nat)
deriving DecidableEq, Repr

/-- Whether an action is a completion report to the remote API. -/
def isCompleteAct : Action → Bool
  | Action.completeTask _ _ _ => true
  | _ => false

/-- Whether an action is a network task-fetch call. -/
def isFetchTasksAct : Action → Bool
  | Action.fetchTasks _ => true
  | _ => false

/-- Number of completion reports in a trace. -/
def countCompletes (tr : List Action) : Nat :=
  tr.countP (fun act => isCompleteAct act)

/-- Replay the store-update actions of a trace onto a record with the given
login (the durable effect of the `updateAccount` calls the trace records). -/
def applyTrace (r : AccountRecord) (tr : List Action) : AccountRecord :=
  tr.foldl
    (fun acc act =>
      match act with
      | Action.storeUpdate l u => if l = acc.login then applyUpdate acc u else acc
      | _ => acc) r

/-- The `repSteamProfilesObj[...]` lookup: JavaScript object assignment in
listing order means the last profile with the given steamId wins. -/
def profLookup (ps : List SteamProfile) (sid : String) : Option Nat :=
  Option.map SteamProfile.id (List.find? (fun p => p.steamId == sid) ps.reverse)

/-- Result of the inner `while (attemptCount < maxAttempts)` loop for one
task. -/
inductive TaskOutcome where
  | success
  | abandoned
  | stop
deriving DecidableEq, Repr

/-- The inner retry loop of `autoComment` (src/src/index.js): one
`postUserComment` per iteration, `resolve(true)` on success,
`resolve(false)` plus a rate-limit store stamp on the rate-limit message,
and `resolve(null)` (retry after a 5000 ms sleep) on a transient failure.
The fuel argument is `maxAttempts - attemptCount`; `k` indexes the oracle
of callback outcomes by the number of post attempts made so far. -/
def attemptTask (login : String) (now : Nat) (oracle : Nat → PostResult) (t : Task) :
    Nat → Nat → List Action × TaskOutcome × Nat
  | 0, k => ([], TaskOutcome.abandoned, k)
  | fuel + 1, k =>
    let act := Action.postAttempt t.targetSteamProfileId t.requiredCommentText
    match oracle k with
    | PostResult.success => ([act], TaskOutcome.success, k + 1)
    | PostResult.rateLimited =>
        ([act, Action.storeUpdate login (StoreUpdate.rateLimitStamp now)],
          TaskOutcome.stop, k + 1)
    | PostResult.privacyRestricted =>
        let r := attemptTask login now oracle t fuel (k + 1)
        (act :: Action.sleep 5000 :: r.1, r.2.1, r.2.2)
    | PostResult.unknownError =>
        let r := attemptTask login now oracle t fuel (k + 1)
        (act :: Action.sleep 5000 :: r.1, r.2.1, r.2.2)

/-- One iteration of the `for (const task of tasks)` body after the cap
check: the retry loop with `maxAttempts = 3`, then on success the
`completeTask` report, and the 15000 ms inter-task sleep unless the
rate-limit branch returned from `autoComment`. -/
def runTask (login : String) (now : Nat) (oracle : Nat → PostResult) (pid : Option Nat)
    (t : Task) (k : Nat) : List Action × TaskOutcome × Nat :=
  let r := attemptTask login now oracle t 3 k
  match r.2.1 with
  | TaskOutcome.stop => (r.1, TaskOutcome.stop, r.2.2)
  | TaskOutcome.success =>
      (r.1 ++ [Action.completeTask t.taskId t.requiredCommentId pid, Action.sleep 15000],
        TaskOutcome.success, r.2.2)
  | TaskOutcome.abandoned => (r.1 ++ [Action.sleep 15000], TaskOutcome.abandoned, r.2.2)

/-- Result of the task loop: trace, final `successfulComments`, next oracle
index, and whether the rate-limit branch returned early. -/
structure RunRes where
  trace : List Action
  posted : Nat
  nextIdx : Nat
  stopped : Bool
deriving DecidableEq, Repr

/-- The `for (const task of tasks)` loop of `autoComment`
(src/src/index.js): break once `successfulComments >= 10`, return from the
whole function on the rate-limit outcome, increment the success count on a
confirmed post, and otherwise move on. -/
def runTasks (login : String) (now : Nat) (oracle : Nat → PostResult) (pid : Option Nat) :
    Nat → Nat → List Task → RunRes
  | k, cnt, [] => RunRes.mk [] cnt k false
  | k, cnt, t :: rest =>
    if cnt ≥ 10 then RunRes.mk [] cnt k false
    else
      let r := runTask login now oracle pid t k
      match r.2.1 with
      | TaskOutcome.stop => RunRes.mk r.1 cnt r.2.2 true
      | TaskOutcome.success =>
          let r2 := runTasks login now oracle pid r.2.2 (cnt + 1) rest
          RunRes.mk (r.1 ++ r2.trace) r2.posted r2.nextIdx r2.stopped
      | TaskOutcome.abandoned =>
          let r2 := runTasks login now oracle pid r.2.2 cnt rest
          RunRes.mk (r.1 ++ r2.trace) r2.posted r2.nextIdx r2.stopped

/-- Environment of one `autoComment` run: current time, the two possible
profile listings (initial fetch and refetch after registration), the task
listing, and the oracle of post-callback outcomes. -/
structure CommentEnv where
  now : Nat
  profiles1 : List SteamProfile
  profiles2 : List SteamProfile
  tasks : List Task
  oracle : Nat → PostResult

/-- Result of an `autoComment` run: trace, successful-comment count, and
whether the rate-limit branch returned early. -/
structure ARes where
  trace : List Action
  posted : Nat
  stopped : Bool
deriving DecidableEq, Repr

/-- The `repSteamProfilesObj[steamID]` value at task-fetch time: built from
the first listing alone when the account is already registered, else from
both listings after the `addSteamProfile` call. -/
def commentPid (sid : String) (env : CommentEnv) : Option Nat :=
  if (env.profiles1.map SteamProfile.steamId).contains sid then profLookup env.profiles1 sid
  else profLookup (env.profiles1 ++ env.profiles2) sid

/-- The `autoComment` dispatcher of src/src/index.js: cool-down check, the
`commentCounter` reset, the profile fetch with optional registration and
refetch, the task fetch, the task loop, and the final `lastComment` stamp
unless the rate-limit branch already returned. -/
def autoComment (sid : String) (a : AccountRecord) (env : CommentEnv) : ARes :=
  if cooldownActive a env.now then ARes.mk [] 0 false
  else
    let head := [Action.storeUpdate a.login StoreUpdate.resetCounter, Action.fetchProfiles]
    let registered := (env.profiles1.map SteamProfile.steamId).contains sid
    let regTrace := if registered then [] else [Action.addProfile sid, Action.fetchProfiles]
    let pid := commentPid sid env
    let r := runTasks a.login env.now env.oracle pid 0 0 env.tasks
    let tail :=
      if r.stopped then []
      else [Action.storeUpdate a.login (StoreUpdate.stampLastComment env.now)]
    ARes.mk (head ++ regTrace ++ Action.fetchTasks pid :: r.trace ++ tail) r.posted r.stopped

/-- Shape of the JSON value answered by the profile-listing endpoint, as
the normalization code of src/unnamed/part_000 discriminates it: a bare
array, an object (whose `data`, `profiles`, `steamProfiles` fields are
either arrays of profiles or absent/non-array, the latter two collapsing
since the source tests `field && Array.isArray(field)`), or a non-object
primitive such as a string. -/
inductive ProfilesResponse where
  | arr (xs : List SteamProfile)
  | obj (data : Option (List SteamProfile)) (profiles : Option (List SteamProfile))
      (steamProfiles : Option (List SteamProfile))
  | str (s : String)
deriving DecidableEq, Repr

/-- The response normalization of src/unnamed/part_000 (lines 170 to 186):
a bare array is kept, else the first of the `data`, `profiles`,
`steamProfiles` array fields is unwrapped, else (including the non-object
case) the dispatcher gives up on the response. -/
def normalizeProfiles : ProfilesResponse → Option (List SteamProfile)
  | ProfilesResponse.arr xs => some xs
  | ProfilesResponse.obj (some d) _ _ => some d
  | ProfilesResponse.obj none (some p) _ => some p
  | ProfilesResponse.obj none none (some sp) => some sp
  | ProfilesResponse.obj none none none => none
  | ProfilesResponse.str _ => none

/-- The `getSteamProfiles` adapter of src/src/api.js: unwrap `json.data`
when it is an array, otherwise return the response unchanged. -/
def getSteamProfiles : ProfilesResponse → ProfilesResponse
  | ProfilesResponse.obj (some d) _ _ => ProfilesResponse.arr d
  | r => r

/-- Termination status of a run of the part_000 dispatcher. -/
inductive AltOutcome where
  | cooldown
  | malformed
  | done
deriving DecidableEq, Repr

/-- The task loop of the part_000 `autoComment`: a single post attempt per
task (no retry loop), `break` on the rate-limit outcome (`"stop"`), and a
15000 ms sleep after every completed iteration. -/
def runTasksAlt (login : String) (now : Nat) (oracle : Nat → PostResult) (pid : Option Nat) :
    Nat → Nat → List Task → RunRes
  | k, cnt, [] => RunRes.mk [] cnt k false
  | k, cnt, t :: rest =>
    if cnt ≥ 10 then RunRes.mk [] cnt k false
    else
      let act := Action.postAttempt t.targetSteamProfileId t.requiredCommentText
      match oracle k with
      | PostResult.rateLimited =>
          RunRes.mk [act, Action.storeUpdate login (StoreUpdate.rateLimitStamp now)]
            cnt (k + 1) true
      | PostResult.success =>
          let r2 := runTasksAlt login now oracle pid (k + 1) (cnt + 1) rest
          RunRes.mk
            (act :: Action.completeTask t.taskId t.requiredCommentId pid ::
              Action.sleep 15000 :: r2.trace) r2.posted r2.nextIdx r2.stopped
      | _ =>
          let r2 := runTasksAlt login now oracle pid (k + 1) cnt rest
          RunRes.mk (act :: Action.sleep 15000 :: r2.trace) r2.posted r2.nextIdx r2.stopped

/-- Result of a run of the part_000 dispatcher: trace, success count, and
how the run ended. -/
structure AltRes where
  trace : List Action
  posted : Nat
  outcome : AltOutcome
deriving DecidableEq, Repr

/-- The `autoComment` dispatcher of src/unnamed/part_000: cool-down check,
counter reset, profile fetch with inline shape normalization (aborting
cleanly on an unrecognized shape), optional registration and refetch (again
normalized), task fetch, the single-attempt task loop, and the final
`lastComment` stamp (which, unlike in src/src/index.js, also runs after a
rate-limit `break`). -/
def autoCommentAlt (sid : String) (a : AccountRecord) (now : Nat)
    (resp1 resp2 : ProfilesResponse) (tasks : List Task) (oracle : Nat → PostResult) : AltRes :=
  if cooldownActive a now then AltRes.mk [] 0 AltOutcome.cooldown
  else
    let head := [Action.storeUpdate a.login StoreUpdate.resetCounter, Action.fetchProfiles]
    match normalizeProfiles resp1 with
    | none => AltRes.mk head 0 AltOutcome.malformed
    | some ps1 =>
      let registered := (ps1.map SteamProfile.steamId).contains sid
      if registered then
        let r := runTasksAlt a.login now oracle (profLookup ps1 sid) 0 0 tasks
        AltRes.mk
          (head ++ Action.fetchTasks (profLookup ps1 sid) :: r.trace ++
            [Action.storeUpdate a.login (StoreUpdate.stampLastComment now)])
          r.posted AltOutcome.done
      else
        let head2 := head ++ [Action.addProfile sid, Action.fetchProfiles]
        match normalizeProfiles resp2 with
        | none => AltRes.mk head2 0 AltOutcome.malformed
        | some ps2 =>
          let pid := profLookup (ps1 ++ ps2) sid
          let r := runTasksAlt a.login now oracle pid 0 0 tasks
          AltRes.mk
            (head2 ++ Action.fetchTasks pid :: r.trace ++
              [Action.storeUpdate a.login (StoreUpdate.stampLastComment now)])
            r.posted AltOutcome.done

/-- Events the steam-user client can deliver to the handlers installed by
`processAccount`, in delivery order. -/
inductive SteamEvent where
  | loggedOn
  | webSession
  | refreshToken (tok : String)
  | errorEvt (eresult : Nat) (rateLimitMsg : Bool)
  | disconnected
deriving DecidableEq, Repr

/-- How the login promise of `processAccount` settled: via the
`refreshToken` handler, via the `once('disconnected')` handler installed
after `autoComment` and `logOff`, or via `reject` in the error handler. -/
inductive SettleKind where
  | resolvedToken
  | resolvedDisconnect
  | rejected (eresult : Nat)
deriving DecidableEq, Repr

/-- Whether a settle kind is a resolution (not a rejection). -/
def SettleKind.isResolved : SettleKind → Bool
  | SettleKind.resolvedToken => true
  | SettleKind.resolvedDisconnect => true
  | SettleKind.rejected _ => false

/-- Snapshot of the handler flags at the instant the promise settled. -/
structure PromSnapshot where
  kind : SettleKind
  loggedOnAt : Bool
  tokenRefreshedAt : Bool
  sawDisconnectedAt : Bool
deriving DecidableEq, Repr

/-- State of the promise machinery of `processAccount`: the `isLoggedOn`
and `isTokenRefreshed` flags, whether the `webSession` handler has been
installed (it is installed inside the `loggedOn` handler), whether the
`once('disconnected')` listener is armed (it is armed by the `webSession`
handler after `autoComment` returns and `logOff` is called), whether a
`disconnected` event has been delivered, and the first settlement (a
promise settles at most once). -/
structure PromState where
  isLoggedOn : Bool
  isTokenRefreshed : Bool
  webListener : Bool
  discListener : Bool
  sawDisconnected : Bool
  settled : Option PromSnapshot
deriving DecidableEq, Repr

/-- Initial promise state: `isTokenRefreshed` starts true exactly when the
account logs on with a pre-existing refresh token (lines 56 and 115-117 of
src/src/index.js). -/
def initProm (hasTok : Bool) : PromState :=
  PromState.mk false hasTok false false false none

/-- Record a settlement if the promise is not yet settled. -/
def trySettle (s : PromState) (kind : SettleKind) : PromState :=
  match s.settled with
  | some _ => s
  | none =>
      let snap := PromSnapshot.mk kind s.isLoggedOn s.isTokenRefreshed s.sawDisconnected
      { s with settled := some snap }

/-- One delivered event, as handled by the listeners of `processAccount`.
The `webSession` case models the handler running to completion (the
embedded `autoComment` call and `logOff`), after which the one-shot
`disconnected` listener is armed; store side effects of the `refreshToken`
and error handlers are returned as actions. -/
def stepProm (login : String) (now : Nat) (s : PromState) :
    SteamEvent → PromState × List Action
  | SteamEvent.loggedOn => ({ s with isLoggedOn := true, webListener := true }, [])
  | SteamEvent.webSession =>
      if s.webListener then ({ s with discListener := true }, []) else (s, [])
  | SteamEvent.refreshToken tok =>
      let s1 := { s with isTokenRefreshed := true }
      let s2 := if s1.isLoggedOn then trySettle s1 SettleKind.resolvedToken else s1
      (s2, [Action.storeUpdate login (StoreUpdate.setRefreshToken tok)])
  | SteamEvent.errorEvt er rl =>
      (trySettle s (SettleKind.rejected er),
        if rl then [Action.storeUpdate login (StoreUpdate.rateLimitStamp now)] else [])
  | SteamEvent.disconnected =>
      let s1 := { s with sawDisconnected := true }
      if s1.discListener then
        (trySettle { s1 with discListener := false } SettleKind.resolvedDisconnect, [])
      else (s1, [])

/-- Run the promise machinery over a list of delivered events. -/
def runProm (login : String) (now : Nat) (hasTok : Bool)
    (events : List SteamEvent) : PromState × List Action :=
  events.foldl
    (fun acc e =>
      let r := stepProm login now acc.1 e
      (r.1, acc.2 ++ r.2))
    (initProm hasTok, [])

/-- The `processAccount` operation of src/src/index.js on an event trace.
The surrounding `try { await ... } catch` swallows any rejection, so the
operation always returns its final promise state to the caller. -/
def processAccount (a : AccountRecord) (now : Nat) (events : List SteamEvent) :
    PromState × List Action :=
  runProm a.login now a.refreshToken.isSome events

/-- Eligibility test of the `startWork` loop: the account has a `steamID`
and is not inside its cool-down window. -/
def eligibleAt (now : Nat) (a : AccountRecord) : Bool :=
  a.steamID.isSome && !cooldownActive a now

/-- The `startWork` batch runner of src/src/index.js: iterate the stored
accounts in order, skip those without a `steamID` or inside the cool-down
window, and run `processAccount` (which never throws) on the rest,
returning each processed login with its final promise state. -/
def startWork (envs : String → List SteamEvent) (now : Nat) :
    List AccountRecord → List (String × PromState)
  | [] => []
  | a :: rest =>
    if a.steamID.isNone then startWork envs now rest
    else if cooldownActive a now then startWork envs now rest
    else (a.login, (processAccount a now (envs a.login)).1) :: startWork envs now rest

/-- Primitive JSON-like field values of a stored account object. -/
inductive JVal where
  | str (s : String)
  | num (n : Int)
  | boolean (b : Bool)
  | nul
deriving DecidableEq, Repr

/-- A JavaScript object as an ordered field list with unique-key updates. -/
abbrev JObj : Type := List (String × JVal)

/-- Value stored under a key (JavaScript property read; keys are unique
within an object, so the first match is the property). -/
def getField : JObj → String → Option JVal
  | [], _ => none
  | kv :: rest, k => if kv.1 = k then some kv.2 else getField rest k

/-- JavaScript property write: replace the value in place if the key
exists, else append the pair. -/
def setField : JObj → String → JVal → JObj
  | [], k, v => [(k, v)]
  | kv :: rest, k, v =>
    if kv.1 = k then (k, v) :: rest else kv :: setField rest k v

/-- `Object.assign(target, updates)` (also the tail of a spread literal):
write each update field in order onto the target. -/
def assignFields (target : JObj) (updates : JObj) : JObj :=
  updates.foldl (fun t kv => setField t kv.1 kv.2) target

/-- The accounts store as loaded from accounts.json: an ordered list of
account objects. -/
abbrev AccStore : Type := List JObj

/-- The `getAccount` lookup: first record whose `login` field equals the
given login. -/
def getAccount (store : AccStore) (login : String) : Option JObj :=
  store.find? (fun r => getField r "login" == some (JVal.str login))

/-- The record appended by `updateAccount` when no record matches:
the spread literal `{ login, ...updates }`. -/
def freshRecord (login : String) (updates : JObj) : JObj :=
  assignFields [("login", JVal.str login)] updates

/-- Core of `updateAccount`: merge the updates into the first record whose
`login` matches, or append `{ login, ...updates }` when none does. -/
def updStore : AccStore → String → JObj → AccStore
  | [], login, u => [freshRecord login u]
  | r :: rest, login, u =>
    if getField r "login" == some (JVal.str login) then assignFields r u :: rest
    else r :: updStore rest login u

/-- The `updateAccount` operation of src/src/index.js: update or append,
then `saveAccounts` (a synchronous `writeFileSync` of the full store)
before returning.  The first component is the in-memory store, the second
the durably written one. -/
def updateAccount (store : AccStore) (login : String) (updates : JObj) :
    AccStore × AccStore :=
  let s := updStore store login updates
  (s, s)

/-- Properties every recorded settlement snapshot satisfies. -/
def goodSnap (hasTok : Bool) (snap : PromSnapshot) : Prop :=
  (snap.kind.isResolved = true → snap.loggedOnAt = true) ∧
  (hasTok = true → snap.tokenRefreshedAt = true) ∧
  (snap.kind = SettleKind.resolvedToken → snap.tokenRefreshedAt = true) ∧
  (snap.kind = SettleKind.resolvedDisconnect → snap.sawDisconnectedAt = true)

/-- Inductive invariant of the promise machinery: each listener is only
armed after login, a pre-existing refresh token keeps the token flag set,
and any settlement snapshot is good. -/
def promInv (hasTok : Bool) (s : PromState) : Prop :=
  (s.webListener = true → s.isLoggedOn = true) ∧
  (s.discListener = true → s.isLoggedOn = true) ∧
  (hasTok = true → s.isTokenRefreshed = true) ∧
  (∀ snap, s.settled = some snap → goodSnap hasTok snap)

theorem trySettle_settled (s : PromState) (k : SettleKind) (snap : PromSnapshot)
    (h : (trySettle s k).settled = some snap) :
    s.settled = some snap ∨
      (s.settled = none ∧
        snap = PromSnapshot.mk k s.isLoggedOn s.isTokenRefreshed s.sawDisconnected) := by
  cases hs : s.settled with
  | some old =>
      left
      simpa [trySettle, hs] using h
  | none =>
      right
      refine ⟨rfl, ?_⟩
      simp [trySettle, hs] at h
      exact h.symm

theorem trySettle_proj (s : PromState) (k : SettleKind) :
    (trySettle s k).isLoggedOn = s.isLoggedOn ∧
    (trySettle s k).isTokenRefreshed = s.isTokenRefreshed ∧
    (trySettle s k).webListener = s.webListener ∧
    (trySettle s k).discListener = s.discListener ∧
    (trySettle s k).sawDisconnected = s.sawDisconnected := by
  unfold trySettle
  cases s.settled <;> simp

theorem promInv_trySettle (hasTok : Bool) (s : PromState) (k : SettleKind)
    (hs : promInv hasTok s)
    (hgood : goodSnap hasTok
      (PromSnapshot.mk k s.isLoggedOn s.isTokenRefreshed s.sawDisconnected)) :
    promInv hasTok (trySettle s k) := by
  obtain ⟨hWeb, hDisc, hTok, hSnap⟩ := hs
  obtain ⟨p1, p2, p3, p4, p5⟩ := trySettle_proj s k
  refine ⟨?_, ?_, ?_, ?_⟩
  · intro h
    rw [p3] at h
    rw [p1]
    exact hWeb h
  · intro h
    rw [p4] at h
    rw [p1]
    exact hDisc h
  · intro h
    rw [p2]
    exact hTok h
  · intro snap h
    rcases trySettle_settled s k snap h with hold | ⟨_, hsnap⟩
    · exact hSnap snap hold
    · rw [hsnap]
      exact hgood

theorem promInv_init (hasTok : Bool) : promInv hasTok (initProm hasTok) := by
  refine ⟨?_, ?_, ?_, ?_⟩ <;> simp [initProm]

theorem promInv_step (login : String) (now : Nat) (hasTok : Bool) (s : PromState)
    (e : SteamEvent) (hs : promInv hasTok s) :
    promInv hasTok (stepProm login now s e).1 := by
  obtain ⟨hWeb, hDisc, hTok, hSnap⟩ := hs
  cases e with
  | loggedOn =>
      exact ⟨fun _ => rfl, fun _ => rfl, hTok, hSnap⟩
  | webSession =>
      cases hw : s.webListener with
      | false =>
          have heq : (stepProm login now s SteamEvent.webSession).1 = s := by
            simp [stepProm, hw]
          rw [heq]
          exact ⟨hWeb, hDisc, hTok, hSnap⟩
      | true =>
          have heq : (stepProm login now s SteamEvent.webSession).1 =
              { s with discListener := true } := by
            simp [stepProm, hw]
          rw [heq]
          exact ⟨fun _ => hWeb hw, fun _ => hWeb hw, hTok, hSnap⟩
  | refreshToken tok =>
      cases hl : s.isLoggedOn with
      | false =>
          have heq : (stepProm login now s (SteamEvent.refreshToken tok)).1 =
              { s with isTokenRefreshed := true } := by
            simp [stepProm, hl]
          rw [heq]
          exact ⟨hWeb, hDisc, fun _ => rfl, hSnap⟩
      | true =>
          have heq : (stepProm login now s (SteamEvent.refreshToken tok)).1 =
              trySettle { s with isTokenRefreshed := true } SettleKind.resolvedToken := by
            simp [stepProm, hl]
          rw [heq]
          apply promInv_trySettle
          · exact ⟨hWeb, hDisc, fun _ => rfl, hSnap⟩
          · exact ⟨fun _ => hl, fun _ => rfl, fun _ => rfl, fun h => absurd h (by simp)⟩
  | errorEvt er rl =>
      have heq : (stepProm login now s (SteamEvent.errorEvt er rl)).1 =
          trySettle s (SettleKind.rejected er) := rfl
      rw [heq]
      apply promInv_trySettle
      · exact ⟨hWeb, hDisc, hTok, hSnap⟩
      · exact ⟨fun h => absurd h (by simp [SettleKind.isResolved]), fun h => hTok h,
          fun h => absurd h (by simp), fun h => absurd h (by simp)⟩
  | disconnected =>
      cases hd : s.discListener with
      | false =>
          have heq : (stepProm login now s SteamEvent.disconnected).1 =
              { s with sawDisconnected := true } := by
            simp [stepProm, hd]
          rw [heq]
          exact ⟨hWeb, fun h => hDisc h, hTok, hSnap⟩
      | true =>
          have heq : (stepProm login now s SteamEvent.disconnected).1 =
              trySettle { s with sawDisconnected := true, discListener := false }
                SettleKind.resolvedDisconnect := by
            simp [stepProm, hd]
          rw [heq]
          apply promInv_trySettle
          · exact ⟨hWeb, fun h => absurd h (by simp), hTok, hSnap⟩
          · exact ⟨fun _ => hDisc hd, fun h => hTok h,
              fun h => absurd h (by simp), fun _ => rfl⟩

theorem promInv_foldl (login : String) (now : Nat) (hasTok : Bool) :
    ∀ (l : List SteamEvent) (p : PromState × List Action), promInv hasTok p.1 →
      promInv hasTok
        (l.foldl
          (fun acc e =>
            let r := stepProm login now acc.1 e
            (r.1, acc.2 ++ r.2)) p).1 := by
  intro l
  induction l with
  | nil => exact fun p hp => hp
  | cons e rest ih =>
      intro p hp
      simp only [List.foldl_cons]
      exact ih _ (promInv_step login now hasTok p.1 e hp)

theorem promInv_runProm (login : String) (now : Nat) (hasTok : Bool)
    (events : List SteamEvent) :
    promInv hasTok (runProm login now hasTok events).1 :=
  promInv_foldl login now hasTok events (initProm hasTok, []) (promInv_init hasTok)

/-- Claim C1, counterexample: for a password-only account (no pre-existing
refresh token), the event order loggedOn, webSession, disconnected settles
the login promise as resolved (via the disconnect path) while the
token-issued flag is still false, so the promise does not wait for both
identity and token issuance as the claim states. -/
theorem c1_counterexample :
    (processAccount (AccountRecord.mk "alice" (some "pw") none (some "1") none none) 0
        [SteamEvent.loggedOn, SteamEvent.webSession, SteamEvent.disconnected]).1.settled =
      some (PromSnapshot.mk SettleKind.resolvedDisconnect true false true) ∧
    SettleKind.isResolved SettleKind.resolvedDisconnect = true ∧
    (PromSnapshot.mk SettleKind.resolvedDisconnect true false true).tokenRefreshedAt = false :=
  ⟨rfl, rfl, rfl⟩

/-- Claim C1 (amended): whenever the login promise of processAccount
resolves, login had been confirmed; if the account authenticates via a
pre-existing refresh token the token counts as already issued, so both
conditions hold; and a resolution through the token path also implies a
token had been issued.  Only the disconnect-path resolution of a
password-authenticated account can occur without token issuance. -/
theorem c1_resolution_requires_login (a : AccountRecord) (now : Nat)
    (events : List SteamEvent) (snap : PromSnapshot)
    (h : (processAccount a now events).1.settled = some snap)
    (hres : snap.kind.isResolved = true) :
    snap.loggedOnAt = true ∧
      (a.refreshToken.isSome = true → snap.tokenRefreshedAt = true) ∧
      (snap.kind = SettleKind.resolvedToken → snap.tokenRefreshedAt = true) := by
  obtain ⟨_, _, _, hSnap⟩ := promInv_runProm a.login now a.refreshToken.isSome events
  obtain ⟨g1, g2, g3, _⟩ := hSnap snap h
  exact ⟨g1 hres, g2, g3⟩

/-- Witness for C1: a refresh-token account whose trace delivers loggedOn
then a refreshed token resolves with both flags set. -/
theorem c1_resolution_requires_login_witness :
    ((processAccount (AccountRecord.mk "bob" none (some "tok0") (some "2") none none) 0
        [SteamEvent.loggedOn, SteamEvent.refreshToken "t1"]).1.settled =
      some (PromSnapshot.mk SettleKind.resolvedToken true true false)) ∧
    ((PromSnapshot.mk SettleKind.resolvedToken true true false).loggedOnAt = true ∧
      ((AccountRecord.mk "bob" none (some "tok0") (some "2") none none).refreshToken.isSome = true →
        (PromSnapshot.mk SettleKind.resolvedToken true true false).tokenRefreshedAt = true) ∧
      ((PromSnapshot.mk SettleKind.resolvedToken true true false).kind =
          SettleKind.resolvedToken →
        (PromSnapshot.mk SettleKind.resolvedToken true true false).tokenRefreshedAt = true)) :=
  ⟨rfl,
    c1_resolution_requires_login
      (AccountRecord.mk "bob" none (some "tok0") (some "2") none none) 0
      [SteamEvent.loggedOn, SteamEvent.refreshToken "t1"]
      (PromSnapshot.mk SettleKind.resolvedToken true true false) rfl rfl⟩

/-- Claim C2, counterexample: the refreshToken handler resolves the login
promise as soon as the token arrives after login, without any disconnected
event (indeed before autoComment has even run), so control can return to
the scheduler without positive confirmation of disconnection. -/
theorem c2_counterexample :
    (processAccount (AccountRecord.mk "alice" (some "pw") none (some "1") none none) 0
        [SteamEvent.loggedOn, SteamEvent.refreshToken "t1"]).1.settled =
      some (PromSnapshot.mk SettleKind.resolvedToken true true false) ∧
    SettleKind.isResolved SettleKind.resolvedToken = true ∧
    (PromSnapshot.mk SettleKind.resolvedToken true true false).sawDisconnectedAt = false :=
  ⟨rfl, rfl, rfl⟩

/-- Claim C2 (amended): the resolution path that follows the dispatcher
(the once-disconnected listener armed by the webSession handler after
autoComment and logOff) fires only once a disconnected event has been
received, and only after login; but the refreshToken resolution path can
return control to the scheduler without any disconnection confirmation. -/
theorem c2_disconnect_path_confirmed (a : AccountRecord) (now : Nat)
    (events : List SteamEvent) (snap : PromSnapshot)
    (h : (processAccount a now events).1.settled = some snap)
    (hk : snap.kind = SettleKind.resolvedDisconnect) :
    snap.sawDisconnectedAt = true ∧ snap.loggedOnAt = true := by
  obtain ⟨_, _, _, hSnap⟩ := promInv_runProm a.login now a.refreshToken.isSome events
  obtain ⟨g1, _, _, g4⟩ := hSnap snap h
  refine ⟨g4 hk, g1 ?_⟩
  rw [hk]
  rfl

/-- Witness for C2: on the trace loggedOn, webSession, disconnected the
promise settles through the disconnect path with the disconnection seen. -/
theorem c2_disconnect_path_confirmed_witness :
    ((processAccount (AccountRecord.mk "carl" (some "pw") none (some "3") none none) 0
        [SteamEvent.loggedOn, SteamEvent.webSession, SteamEvent.disconnected]).1.settled =
      some (PromSnapshot.mk SettleKind.resolvedDisconnect true false true)) ∧
    ((PromSnapshot.mk SettleKind.resolvedDisconnect true false true).sawDisconnectedAt = true ∧
      (PromSnapshot.mk SettleKind.resolvedDisconnect true false true).loggedOnAt = true) :=
  ⟨rfl,
    c2_disconnect_path_confirmed
      (AccountRecord.mk "carl" (some "pw") none (some "3") none none) 0
      [SteamEvent.loggedOn, SteamEvent.webSession, SteamEvent.disconnected]
      (PromSnapshot.mk SettleKind.resolvedDisconnect true false true) rfl rfl⟩

theorem countCompletes_append (l1 l2 : List Action) :
    countCompletes (l1 ++ l2) = countCompletes l1 + countCompletes l2 := by
  simp [countCompletes, List.countP_append]

theorem attemptTask_no_complete (login : String) (now : Nat) (oracle : Nat → PostResult)
    (t : Task) :
    ∀ (fuel k : Nat) (a : Action), a ∈ (attemptTask login now oracle t fuel k).1 →
      isCompleteAct a = false := by
  intro fuel
  induction fuel with
  | zero =>
      intro k a h
      simp [attemptTask] at h
  | succ fuel ih =>
      intro k a h
      cases horacle : oracle k
      case success =>
          simp [attemptTask, horacle] at h
          subst h
          rfl
      case rateLimited =>
          simp [attemptTask, horacle] at h
          rcases h with h | h
          · subst h; rfl
          · subst h; rfl
      case privacyRestricted =>
          simp [attemptTask, horacle] at h
          rcases h with h | h | h
          · subst h; rfl
          · subst h; rfl
          · exact ih (k + 1) a h
      case unknownError =>
          simp [attemptTask, horacle] at h
          rcases h with h | h | h
          · subst h; rfl
          · subst h; rfl
          · exact ih (k + 1) a h

theorem attemptTask_completes (login : String) (now : Nat) (oracle : Nat → PostResult)
    (t : Task) (fuel k : Nat) :
    countCompletes (attemptTask login now oracle t fuel k).1 = 0 := by
  rw [countCompletes, List.countP_eq_zero]
  intro a ha
  simp [attemptTask_no_complete login now oracle t fuel k a ha]

theorem runTask_complete_mem (login : String) (now : Nat) (oracle : Nat → PostResult)
    (pid : Option Nat) (t : Task) (k : Nat) (a : Action)
    (hmem : a ∈ (runTask login now oracle pid t k).1) (hc : isCompleteAct a = true) :
    a = Action.completeTask t.taskId t.requiredCommentId pid := by
  unfold runTask at hmem
  dsimp only at hmem
  cases ho : (attemptTask login now oracle t 3 k).2.1
  case success =>
      rw [ho] at hmem
      simp at hmem
      rcases hmem with h | h | h
      · rw [attemptTask_no_complete login now oracle t 3 k a h] at hc
        simp at hc
      · exact h
      · subst h
        simp [isCompleteAct] at hc
  case abandoned =>
      rw [ho] at hmem
      simp at hmem
      rcases hmem with h | h
      · rw [attemptTask_no_complete login now oracle t 3 k a h] at hc
        simp at hc
      · subst h
        simp [isCompleteAct] at hc
  case stop =>
      rw [ho] at hmem
      simp at hmem
      rw [attemptTask_no_complete login now oracle t 3 k a hmem] at hc
      simp at hc

theorem runTask_completes (login : String) (now : Nat) (oracle : Nat → PostResult)
    (pid : Option Nat) (t : Task) (k : Nat) :
    countCompletes (runTask login now oracle pid t k).1 =
      (if (runTask login now oracle pid t k).2.1 = TaskOutcome.success then 1 else 0) := by
  unfold runTask
  dsimp only
  cases ho : (attemptTask login now oracle t 3 k).2.1 <;>
    simp [countCompletes_append, countCompletes, isCompleteAct] <;>
    exact fun a ha => attemptTask_no_complete login now oracle t 3 k a ha

theorem runTasks_capped (login : String) (now : Nat) (oracle : Nat → PostResult)
    (pid : Option Nat) (k cnt : Nat) (l : List Task) (h : cnt ≥ 10) :
    runTasks login now oracle pid k cnt l = RunRes.mk [] cnt k false := by
  cases l with
  | nil => rfl
  | cons t rest => simp [runTasks, h]

theorem runTasks_bounds (login : String) (now : Nat) (oracle : Nat → PostResult)
    (pid : Option Nat) :
    ∀ (l : List Task) (k cnt : Nat), cnt ≤ 10 →
      cnt ≤ (runTasks login now oracle pid k cnt l).posted ∧
      (runTasks login now oracle pid k cnt l).posted ≤ 10 ∧
      countCompletes (runTasks login now oracle pid k cnt l).trace =
        (runTasks login now oracle pid k cnt l).posted - cnt := by
  intro l
  induction l with
  | nil =>
      intro k cnt h
      refine ⟨Nat.le_refl cnt, h, ?_⟩
      simp [runTasks, countCompletes]
  | cons t rest ih =>
      intro k cnt h
      rw [runTasks]
      dsimp only
      by_cases hcap : cnt ≥ 10
      · rw [if_pos hcap]
        refine ⟨Nat.le_refl cnt, h, ?_⟩
        simp [countCompletes]
      · rw [if_neg hcap]
        cases hr : (runTask login now oracle pid t k).2.1 <;> dsimp only
        · obtain ⟨i1, i2, i3⟩ :=
            ih (runTask login now oracle pid t k).2.2 (cnt + 1) (by omega)
          have hc := runTask_completes login now oracle pid t k
          rw [hr] at hc
          simp at hc
          refine ⟨by omega, i2, ?_⟩
          rw [countCompletes_append, hc, i3]
          omega
        · obtain ⟨i1, i2, i3⟩ := ih (runTask login now oracle pid t k).2.2 cnt h
          have hc := runTask_completes login now oracle pid t k
          rw [hr] at hc
          simp at hc
          refine ⟨i1, i2, ?_⟩
          rw [countCompletes_append, hc, i3]
          omega
        · have hc := runTask_completes login now oracle pid t k
          rw [hr] at hc
          simp at hc
          exact ⟨Nat.le_refl cnt, h, by simpa using hc⟩

theorem runTasks_complete_mem (login : String) (now : Nat) (oracle : Nat → PostResult)
    (pid : Option Nat) :
    ∀ (l : List Task) (k cnt : Nat) (a : Action),
      a ∈ (runTasks login now oracle pid k cnt l).trace → isCompleteAct a = true →
      ∃ t, t ∈ l ∧ a = Action.completeTask t.taskId t.requiredCommentId pid := by
  intro l
  induction l with
  | nil =>
      intro k cnt a ha hc
      simp [runTasks] at ha
  | cons t rest ih =>
      intro k cnt a ha hc
      rw [runTasks] at ha
      dsimp only at ha
      by_cases hcap : cnt ≥ 10
      · rw [if_pos hcap] at ha
        simp at ha
      · rw [if_neg hcap] at ha
        cases hr : (runTask login now oracle pid t k).2.1 <;> rw [hr] at ha <;> simp at ha
        · rcases ha with ha | ha
          · exact ⟨t, List.mem_cons_self t rest,
              runTask_complete_mem login now oracle pid t k a ha hc⟩
          · obtain ⟨u, hu, he⟩ := ih (runTask login now oracle pid t k).2.2 (cnt + 1) a ha hc
            exact ⟨u, List.mem_cons_of_mem t hu, he⟩
        · rcases ha with ha | ha
          · exact ⟨t, List.mem_cons_self t rest,
              runTask_complete_mem login now oracle pid t k a ha hc⟩
          · obtain ⟨u, hu, he⟩ := ih (runTask login now oracle pid t k).2.2 cnt a ha hc
            exact ⟨u, List.mem_cons_of_mem t hu, he⟩
        · exact ⟨t, List.mem_cons_self t rest,
            runTask_complete_mem login now oracle pid t k a ha hc⟩

theorem attemptTask_stop_suffix (login : String) (now : Nat) (oracle : Nat → PostResult)
    (t : Task) :
    ∀ (fuel k : Nat), (attemptTask login now oracle t fuel k).2.1 = TaskOutcome.stop →
      ∃ pre, (attemptTask login now oracle t fuel k).1 =
        pre ++ [Action.storeUpdate login (StoreUpdate.rateLimitStamp now)] := by
  intro fuel
  induction fuel with
  | zero =>
      intro k h
      simp [attemptTask] at h
  | succ fuel ih =>
      intro k h
      cases horacle : oracle k
      case success =>
          rw [attemptTask] at h
          simp [horacle] at h
      case rateLimited =>
          refine ⟨[Action.postAttempt t.targetSteamProfileId t.requiredCommentText], ?_⟩
          simp [attemptTask, horacle]
      case privacyRestricted =>
          rw [attemptTask] at h
          simp only [horacle] at h
          obtain ⟨pre, hpre⟩ := ih (k + 1) h
          refine ⟨Action.postAttempt t.targetSteamProfileId t.requiredCommentText ::
            Action.sleep 5000 :: pre, ?_⟩
          simp [attemptTask, horacle, hpre]
      case unknownError =>
          rw [attemptTask] at h
          simp only [horacle] at h
          obtain ⟨pre, hpre⟩ := ih (k + 1) h
          refine ⟨Action.postAttempt t.targetSteamProfileId t.requiredCommentText ::
            Action.sleep 5000 :: pre, ?_⟩
          simp [attemptTask, horacle, hpre]

theorem runTask_stop_suffix (login : String) (now : Nat) (oracle : Nat → PostResult)
    (pid : Option Nat) (t : Task) (k : Nat)
    (h : (runTask login now oracle pid t k).2.1 = TaskOutcome.stop) :
    ∃ pre, (runTask login now oracle pid t k).1 =
      pre ++ [Action.storeUpdate login (StoreUpdate.rateLimitStamp now)] := by
  unfold runTask at h ⊢
  dsimp only at h ⊢
  cases ho : (attemptTask login now oracle t 3 k).2.1
  case success =>
      rw [ho] at h
      simp at h
  case abandoned =>
      rw [ho] at h
      simp at h
  case stop => exact attemptTask_stop_suffix login now oracle t 3 k ho

theorem runTasks_stop_suffix (login : String) (now : Nat) (oracle : Nat → PostResult)
    (pid : Option Nat) :
    ∀ (l : List Task) (k cnt : Nat), (runTasks login now oracle pid k cnt l).stopped = true →
      ∃ pre, (runTasks login now oracle pid k cnt l).trace =
        pre ++ [Action.storeUpdate login (StoreUpdate.rateLimitStamp now)] := by
  intro l
  induction l with
  | nil =>
      intro k cnt h
      simp [runTasks] at h
  | cons t rest ih =>
      intro k cnt h
      rw [runTasks] at h ⊢
      dsimp only at h ⊢
      by_cases hcap : cnt ≥ 10
      · rw [if_pos hcap] at h
        simp at h
      · rw [if_neg hcap] at h ⊢
        cases hr : (runTask login now oracle pid t k).2.1 <;> rw [hr] at h <;>
          dsimp only at h ⊢
        · obtain ⟨pre, hpre⟩ := ih (runTask login now oracle pid t k).2.2 (cnt + 1) h
          refine ⟨(runTask login now oracle pid t k).1 ++ pre, ?_⟩
          rw [hpre, List.append_assoc]
        · obtain ⟨pre, hpre⟩ := ih (runTask login now oracle pid t k).2.2 cnt h
          refine ⟨(runTask login now oracle pid t k).1 ++ pre, ?_⟩
          rw [hpre, List.append_assoc]
        · exact runTask_stop_suffix login now oracle pid t k hr

theorem applyUpdate_login (r : AccountRecord) (u : StoreUpdate) :
    (applyUpdate r u).login = r.login := by
  cases u <;> rfl

theorem applyTrace_cons (r : AccountRecord) (a : Action) (tr : List Action) :
    applyTrace r (a :: tr) =
      applyTrace
        (match a with
          | Action.storeUpdate l u => if l = r.login then applyUpdate r u else r
          | _ => r) tr := rfl

theorem applyTrace_login : ∀ (tr : List Action) (r : AccountRecord),
    (applyTrace r tr).login = r.login := by
  intro tr
  induction tr with
  | nil => intro r; rfl
  | cons a tr ih =>
      intro r
      rw [applyTrace_cons]
      cases a
      case storeUpdate l u =>
          dsimp only
          by_cases hl : l = r.login
          · rw [if_pos hl, ih (applyUpdate r u), applyUpdate_login]
          · rw [if_neg hl]
            exact ih r
      all_goals exact ih r

theorem applyTrace_append (r : AccountRecord) (l1 l2 : List Action) :
    applyTrace r (l1 ++ l2) = applyTrace (applyTrace r l1) l2 := by
  simp [applyTrace, List.foldl_append]

theorem applyTrace_single (x : AccountRecord) (l : String) (u : StoreUpdate)
    (hl : l = x.login) :
    applyTrace x [Action.storeUpdate l u] = applyUpdate x u := by
  simp only [applyTrace, List.foldl_cons, List.foldl_nil]
  rw [if_pos hl]

theorem applyTrace_rateLimit_suffix (r : AccountRecord) (pre : List Action) (n : Nat) :
    (applyTrace r
        (pre ++ [Action.storeUpdate r.login (StoreUpdate.rateLimitStamp n)])).commentCounter =
      some 0 ∧
    (applyTrace r
        (pre ++ [Action.storeUpdate r.login (StoreUpdate.rateLimitStamp n)])).lastComment =
      some n := by
  have hlog : (applyTrace r pre).login = r.login := applyTrace_login pre r
  rw [applyTrace_append, applyTrace_single (applyTrace r pre) r.login
    (StoreUpdate.rateLimitStamp n) hlog.symm]
  exact ⟨rfl, rfl⟩

theorem autoComment_eq (sid : String) (a : AccountRecord) (env : CommentEnv)
    (hcool : cooldownActive a env.now = false) :
    autoComment sid a env =
      ARes.mk
        ([Action.storeUpdate a.login StoreUpdate.resetCounter, Action.fetchProfiles] ++
          (if (env.profiles1.map SteamProfile.steamId).contains sid then []
            else [Action.addProfile sid, Action.fetchProfiles]) ++
          Action.fetchTasks (commentPid sid env) ::
            (runTasks a.login env.now env.oracle (commentPid sid env) 0 0 env.tasks).trace ++
          (if (runTasks a.login env.now env.oracle (commentPid sid env) 0 0 env.tasks).stopped
            then []
            else [Action.storeUpdate a.login (StoreUpdate.stampLastComment env.now)]))
        (runTasks a.login env.now env.oracle (commentPid sid env) 0 0 env.tasks).posted
        (runTasks a.login env.now env.oracle (commentPid sid env) 0 0 env.tasks).stopped := by
  rw [autoComment, if_neg (by simp [hcool])]

/-- Claim C3: if posting a comment fails with the rate-limit message, no
further task is attempted this cycle (the rate-limit store stamp is the
last action of the whole run), and the persisted record ends with
commentCounter 0 and lastComment set to the current time. -/
theorem c3_rateLimit_terminal (sid : String) (a : AccountRecord) (env : CommentEnv)
    (h : (autoComment sid a env).stopped = true) :
    (∃ pre, (autoComment sid a env).trace =
      pre ++ [Action.storeUpdate a.login (StoreUpdate.rateLimitStamp env.now)]) ∧
    (applyTrace a (autoComment sid a env).trace).commentCounter = some 0 ∧
    (applyTrace a (autoComment sid a env).trace).lastComment = some env.now := by
  have hcool : cooldownActive a env.now = false := by
    cases hcv : cooldownActive a env.now
    · rfl
    · simp [autoComment, hcv] at h
  have hstop : (runTasks a.login env.now env.oracle (commentPid sid env) 0 0
      env.tasks).stopped = true := by
    rw [autoComment_eq sid a env hcool] at h
    exact h
  obtain ⟨pre, hpre⟩ := runTasks_stop_suffix a.login env.now env.oracle (commentPid sid env)
    env.tasks 0 0 hstop
  have htrace : (autoComment sid a env).trace =
      ([Action.storeUpdate a.login StoreUpdate.resetCounter, Action.fetchProfiles] ++
        (if (env.profiles1.map SteamProfile.steamId).contains sid then []
          else [Action.addProfile sid, Action.fetchProfiles]) ++
        Action.fetchTasks (commentPid sid env) :: pre) ++
      [Action.storeUpdate a.login (StoreUpdate.rateLimitStamp env.now)] := by
    rw [autoComment_eq sid a env hcool]
    dsimp only
    rw [if_pos hstop, hpre]
    simp
  refine ⟨⟨_, htrace⟩, ?_, ?_⟩
  · rw [htrace]
    exact (applyTrace_rateLimit_suffix a _ env.now).1
  · rw [htrace]
    exact (applyTrace_rateLimit_suffix a _ env.now).2

/-- Witness for C3: a single rate-limited task stops the cycle and stamps
the record. -/
theorem c3_rateLimit_terminal_witness :
    ((autoComment "7656" (AccountRecord.mk "alice" (some "pw") none (some "7656") none none)
        (CommentEnv.mk 0 [SteamProfile.mk "7656" 1] [] [Task.mk 5 "target" "nice" 9]
          (fun _ => PostResult.rateLimited))).stopped = true) ∧
    ((∃ pre,
        (autoComment "7656" (AccountRecord.mk "alice" (some "pw") none (some "7656") none none)
          (CommentEnv.mk 0 [SteamProfile.mk "7656" 1] [] [Task.mk 5 "target" "nice" 9]
            (fun _ => PostResult.rateLimited))).trace =
          pre ++ [Action.storeUpdate "alice" (StoreUpdate.rateLimitStamp 0)]) ∧
      (applyTrace (AccountRecord.mk "alice" (some "pw") none (some "7656") none none)
        (autoComment "7656" (AccountRecord.mk "alice" (some "pw") none (some "7656") none none)
          (CommentEnv.mk 0 [SteamProfile.mk "7656" 1] [] [Task.mk 5 "target" "nice" 9]
            (fun _ => PostResult.rateLimited))).trace).commentCounter = some 0 ∧
      (applyTrace (AccountRecord.mk "alice" (some "pw") none (some "7656") none none)
        (autoComment "7656" (AccountRecord.mk "alice" (some "pw") none (some "7656") none none)
          (CommentEnv.mk 0 [SteamProfile.mk "7656" 1] [] [Task.mk 5 "target" "nice" 9]
            (fun _ => PostResult.rateLimited))).trace).lastComment = some 0) :=
  ⟨rfl,
    c3_rateLimit_terminal "7656" (AccountRecord.mk "alice" (some "pw") none (some "7656") none none)
      (CommentEnv.mk 0 [SteamProfile.mk "7656" 1] [] [Task.mk 5 "target" "nice" 9]
        (fun _ => PostResult.rateLimited)) rfl⟩

theorem transient_cases (r : PostResult) (h : transientFailure r = true) :
    r = PostResult.privacyRestricted ∨ r = PostResult.unknownError := by
  cases r <;> simp [transientFailure] at h ⊢

theorem attemptTask_three_transient (login : String) (now : Nat) (oracle : Nat → PostResult)
    (t : Task) (k : Nat)
    (h0 : transientFailure (oracle k) = true)
    (h1 : transientFailure (oracle (k + 1)) = true)
    (h2 : transientFailure (oracle (k + 1 + 1)) = true) :
    attemptTask login now oracle t 3 k =
      ([Action.postAttempt t.targetSteamProfileId t.requiredCommentText, Action.sleep 5000,
        Action.postAttempt t.targetSteamProfileId t.requiredCommentText, Action.sleep 5000,
        Action.postAttempt t.targetSteamProfileId t.requiredCommentText, Action.sleep 5000],
        TaskOutcome.abandoned, k + 1 + 1 + 1) := by
  obtain hk0 | hk0 := transient_cases _ h0 <;>
    obtain hk1 | hk1 := transient_cases _ h1 <;>
      obtain hk2 | hk2 := transient_cases _ h2 <;>
        simp [attemptTask, hk0, hk1, hk2]

/-- Claim C4: a task whose three post attempts all fail transiently (the
privacy-restriction message or an unknown error) is retried after a fixed
5000 ms sleep up to the cap of 3 attempts, then abandoned for the cycle:
no completion report appears and the success count is unchanged. -/
theorem c4_transient_retries (login : String) (now : Nat) (oracle : Nat → PostResult)
    (pid : Option Nat) (t : Task) (k : Nat)
    (h0 : transientFailure (oracle k) = true)
    (h1 : transientFailure (oracle (k + 1)) = true)
    (h2 : transientFailure (oracle (k + 2)) = true) :
    runTask login now oracle pid t k =
      ([Action.postAttempt t.targetSteamProfileId t.requiredCommentText, Action.sleep 5000,
        Action.postAttempt t.targetSteamProfileId t.requiredCommentText, Action.sleep 5000,
        Action.postAttempt t.targetSteamProfileId t.requiredCommentText, Action.sleep 5000,
        Action.sleep 15000], TaskOutcome.abandoned, k + 3) ∧
    countCompletes (runTask login now oracle pid t k).1 = 0 ∧
    (∀ (cnt : Nat) (rest : List Task), cnt < 10 →
      (runTasks login now oracle pid k cnt (t :: rest)).posted =
        (runTasks login now oracle pid (k + 3) cnt rest).posted) := by
  have ha := attemptTask_three_transient login now oracle t k h0 h1 h2
  have hrt : runTask login now oracle pid t k =
      ([Action.postAttempt t.targetSteamProfileId t.requiredCommentText, Action.sleep 5000,
        Action.postAttempt t.targetSteamProfileId t.requiredCommentText, Action.sleep 5000,
        Action.postAttempt t.targetSteamProfileId t.requiredCommentText, Action.sleep 5000,
        Action.sleep 15000], TaskOutcome.abandoned, k + 3) := by
    simp [runTask, ha]
  refine ⟨hrt, ?_, ?_⟩
  · rw [hrt]
    rfl
  · intro cnt rest hcnt
    rw [runTasks]
    dsimp only
    rw [if_neg (by omega)]
    rw [hrt]

/-- Witness for C4: three unknown errors on the only task leave the success
count at zero. -/
theorem c4_transient_retries_witness :
    (transientFailure ((fun _ => PostResult.unknownError) 0) = true) ∧
    (transientFailure ((fun _ => PostResult.unknownError) (0 + 1)) = true) ∧
    (transientFailure ((fun _ => PostResult.unknownError) (0 + 2)) = true) ∧
    (runTask "alice" 0 (fun _ => PostResult.unknownError) (some 1) (Task.mk 5 "t" "c" 9) 0 =
      ([Action.postAttempt "t" "c", Action.sleep 5000, Action.postAttempt "t" "c",
        Action.sleep 5000, Action.postAttempt "t" "c", Action.sleep 5000, Action.sleep 15000],
        TaskOutcome.abandoned, 0 + 3) ∧
      countCompletes
        (runTask "alice" 0 (fun _ => PostResult.unknownError) (some 1)
          (Task.mk 5 "t" "c" 9) 0).1 = 0 ∧
      (∀ (cnt : Nat) (rest : List Task), cnt < 10 →
        (runTasks "alice" 0 (fun _ => PostResult.unknownError) (some 1) 0 cnt
            (Task.mk 5 "t" "c" 9 :: rest)).posted =
          (runTasks "alice" 0 (fun _ => PostResult.unknownError) (some 1) (0 + 3) cnt
            rest).posted)) :=
  ⟨rfl, rfl, rfl,
    c4_transient_retries "alice" 0 (fun _ => PostResult.unknownError) (some 1)
      (Task.mk 5 "t" "c" 9) 0 rfl rfl rfl⟩

/-- Claim C6: an account whose lastComment is set and within 24 hours of
the current time produces a dispatcher run with no actions at all (in
particular zero task-fetch network calls) and zero comments posted, and the
scheduler pre-filter skips the account before engaging any session. -/
theorem c6_cooldown_blocks (sid : String) (a : AccountRecord) (env : CommentEnv) (t : Nat)
    (h1 : a.lastComment = some t) (h2 : env.now - t < twentyFourHours) :
    autoComment sid a env = ARes.mk [] 0 false ∧
    ((autoComment sid a env).trace.countP (fun act => isFetchTasksAct act) = 0) ∧
    (∀ (envs : String → List SteamEvent) (rest : List AccountRecord),
      startWork envs env.now (a :: rest) = startWork envs env.now rest) := by
  have hcool : cooldownActive a env.now = true := by
    simp [cooldownActive, h1, h2]
  have hrun : autoComment sid a env = ARes.mk [] 0 false := by
    simp [autoComment, hcool]
  refine ⟨hrun, ?_, ?_⟩
  · rw [hrun]
    rfl
  · intro envs rest
    rw [startWork]
    simp [hcool]

/-- Witness for C6: an account that commented at time 0, seen again at time
1000, is skipped everywhere. -/
theorem c6_cooldown_blocks_witness :
    ((AccountRecord.mk "alice" (some "pw") none (some "7656") none (some 0)).lastComment =
      some 0) ∧
    ((1000 : Nat) - 0 < twentyFourHours) ∧
    (autoComment "7656" (AccountRecord.mk "alice" (some "pw") none (some "7656") none (some 0))
        (CommentEnv.mk 1000 [] [] [] (fun _ => PostResult.success)) = ARes.mk [] 0 false) ∧
    (startWork (fun _ => []) 1000
        [AccountRecord.mk "alice" (some "pw") none (some "7656") none (some 0)] =
      startWork (fun _ => []) 1000 []) :=
  ⟨rfl, by decide,
    (c6_cooldown_blocks "7656"
      (AccountRecord.mk "alice" (some "pw") none (some "7656") none (some 0))
      (CommentEnv.mk 1000 [] [] [] (fun _ => PostResult.success)) 0 rfl (by decide)).1,
    (c6_cooldown_blocks "7656"
      (AccountRecord.mk "alice" (some "pw") none (some "7656") none (some 0))
      (CommentEnv.mk 1000 [] [] [] (fun _ => PostResult.success)) 0 rfl (by decide)).2.2
      (fun _ => []) []⟩

/-- Claim C7: the batch runner processes exactly the eligible accounts, in
persisted order, whatever events (including login errors and rejections)
each account's processing encounters: processAccount catches every
rejection, so no per-account failure terminates the batch. -/
theorem c7_batch_isolation (envs : String → List SteamEvent) (now : Nat) :
    ∀ accounts : List AccountRecord,
      (startWork envs now accounts).map Prod.fst =
        (accounts.filter (fun a => eligibleAt now a)).map AccountRecord.login := by
  intro accounts
  induction accounts with
  | nil => rfl
  | cons a rest ih =>
      rw [startWork]
      by_cases hsid : a.steamID.isNone = true
      · rw [if_pos hsid]
        have hel : eligibleAt now a = false := by
          simp [eligibleAt, Option.isNone_iff_eq_none.mp hsid]
        simp [List.filter_cons, hel, ih]
      · by_cases hcd : cooldownActive a now = true
        · rw [if_neg hsid, if_pos hcd]
          have hel : eligibleAt now a = false := by
            simp [eligibleAt, hcd]
          simp [List.filter_cons, hel, ih]
        · rw [if_neg hsid, if_neg hcd]
          have hsome : a.steamID.isSome = true := by
            cases hs : a.steamID with
            | none => exact absurd (by simp [hs]) hsid
            | some v => simp
          have hcd' : cooldownActive a now = false := by
            cases hcv : cooldownActive a now
            · rfl
            · exact absurd hcv hcd
          have hel : eligibleAt now a = true := by
            simp [eligibleAt, hsome, hcd']
          simp [List.filter_cons, hel, ih]

/-- Claim C10: the stored commentCounter is write-only for the dispatcher:
two runs differing only in the stored commentCounter produce identical
traces (post attempts, completion reports, sleeps, store writes) and the
same success count; and when the cool-down is inactive the first action of
the run is the counter reset to zero. -/
theorem c10_counter_never_read (sid : String) (a : AccountRecord) (c1 c2 : Option Nat)
    (env : CommentEnv) :
    autoComment sid { a with commentCounter := c1 } env =
      autoComment sid { a with commentCounter := c2 } env ∧
    (cooldownActive a env.now = false →
      ∃ rest, (autoComment sid a env).trace =
        Action.storeUpdate a.login StoreUpdate.resetCounter :: rest) := by
  constructor
  · cases a
    rfl
  · intro hcool
    rw [autoComment_eq sid a env hcool]
    exact ⟨_, rfl⟩

/-- Witness for C10: concrete runs with counters none and some 5 coincide,
and the run opens with the counter reset. -/
theorem c10_counter_never_read_witness :
    (autoComment "7656" (AccountRecord.mk "alice" (some "pw") none (some "7656") none none)
        (CommentEnv.mk 0 [SteamProfile.mk "7656" 1] [] [Task.mk 5 "t" "c" 9]
          (fun _ => PostResult.success)) =
      autoComment "7656" (AccountRecord.mk "alice" (some "pw") none (some "7656") (some 5) none)
        (CommentEnv.mk 0 [SteamProfile.mk "7656" 1] [] [Task.mk 5 "t" "c" 9]
          (fun _ => PostResult.success))) ∧
    (cooldownActive (AccountRecord.mk "alice" (some "pw") none (some "7656") none none) 0 =
      false) ∧
    (∃ rest,
      (autoComment "7656" (AccountRecord.mk "alice" (some "pw") none (some "7656") none none)
          (CommentEnv.mk 0 [SteamProfile.mk "7656" 1] [] [Task.mk 5 "t" "c" 9]
            (fun _ => PostResult.success))).trace =
        Action.storeUpdate "alice" StoreUpdate.resetCounter :: rest) :=
  ⟨(c10_counter_never_read "7656"
      (AccountRecord.mk "alice" (some "pw") none (some "7656") none none) none (some 5)
      (CommentEnv.mk 0 [SteamProfile.mk "7656" 1] [] [Task.mk 5 "t" "c" 9]
        (fun _ => PostResult.success))).1,
    rfl,
    (c10_counter_never_read "7656"
      (AccountRecord.mk "alice" (some "pw") none (some "7656") none none) none (some 5)
      (CommentEnv.mk 0 [SteamProfile.mk "7656" 1] [] [Task.mk 5 "t" "c" 9]
        (fun _ => PostResult.success))).2 rfl⟩

theorem countCompletes_cons (a : Action) (l : List Action) :
    countCompletes (a :: l) =
      countCompletes l + (if isCompleteAct a = true then 1 else 0) := by
  simp [countCompletes, List.countP_cons]

theorem not_mem_complete_of_zero (l : List Action) (hz : countCompletes l = 0) (a : Action)
    (ha : a ∈ l) : isCompleteAct a = false := by
  rw [countCompletes, List.countP_eq_zero] at hz
  simpa using hz a ha

theorem runTasks_reach_cap (login : String) (now : Nat) (oracle : Nat → PostResult)
    (pid : Option Nat) :
    ∀ (l1 l2 : List Task) (k cnt : Nat),
      ((runTasks login now oracle pid k cnt l1).posted = 10 ∨
        (runTasks login now oracle pid k cnt l1).stopped = true) →
      runTasks login now oracle pid k cnt (l1 ++ l2) =
        runTasks login now oracle pid k cnt l1 := by
  intro l1
  induction l1 with
  | nil =>
      intro l2 k cnt h
      rcases h with h | h
      · have hcnt : cnt ≥ 10 := by
          simp [runTasks] at h
          omega
        rw [List.nil_append, runTasks_capped login now oracle pid k cnt l2 hcnt]
        rfl
      · simp [runTasks] at h
  | cons t rest ih =>
      intro l2 k cnt h
      by_cases hcap : cnt ≥ 10
      · rw [List.cons_append,
          runTasks_capped login now oracle pid k cnt (t :: (rest ++ l2)) hcap,
          runTasks_capped login now oracle pid k cnt (t :: rest) hcap]
      · rw [List.cons_append]
        rw [runTasks] at h
        dsimp only at h
        rw [if_neg hcap] at h
        rw [runTasks, runTasks]
        dsimp only
        rw [if_neg hcap, if_neg hcap]
        cases hr : (runTask login now oracle pid t k).2.1
        · rw [hr] at h
          dsimp only at h ⊢
          rw [ih l2 (runTask login now oracle pid t k).2.2 (cnt + 1) h]
        · rw [hr] at h
          dsimp only at h ⊢
          rw [ih l2 (runTask login now oracle pid t k).2.2 cnt h]
        · rfl

/-- Claim C5: every confirmed successful post reports completion exactly
once (the number of completion reports equals the success count), each
report carries the task's ids and the account's remote profile id, the
success count never exceeds 10, and once 10 successes are reached the
remaining tasks of the cycle are not attempted (appending further tasks
changes nothing about the run). -/
theorem c5_completion_reports_and_cap (sid : String) (a : AccountRecord) (env : CommentEnv) :
    (autoComment sid a env).posted ≤ 10 ∧
    countCompletes (autoComment sid a env).trace = (autoComment sid a env).posted ∧
    (∀ act, act ∈ (autoComment sid a env).trace → isCompleteAct act = true →
      ∃ t, t ∈ env.tasks ∧
        act = Action.completeTask t.taskId t.requiredCommentId (commentPid sid env)) ∧
    (∀ extra : List Task, (autoComment sid a env).posted = 10 →
      autoComment sid a { env with tasks := env.tasks ++ extra } = autoComment sid a env) := by
  by_cases hcoolT : cooldownActive a env.now = true
  · have he : autoComment sid a env = ARes.mk [] 0 false := by
      simp [autoComment, hcoolT]
    have heX : ∀ extra : List Task,
        autoComment sid a { env with tasks := env.tasks ++ extra } = ARes.mk [] 0 false := by
      intro extra
      simp [autoComment, hcoolT]
    refine ⟨?_, ?_, ?_, ?_⟩
    · rw [he]
      simp
    · rw [he]
      rfl
    · intro act hm
      rw [he] at hm
      simp at hm
    · intro extra h10
      rw [he, heX extra]
  · have hcool : cooldownActive a env.now = false := by
      cases hcv : cooldownActive a env.now
      · rfl
      · exact absurd hcv hcoolT
    obtain ⟨b1, b2, b3⟩ := runTasks_bounds a.login env.now env.oracle (commentPid sid env)
      env.tasks 0 0 (by omega)
    have hreg : countCompletes
        (if (env.profiles1.map SteamProfile.steamId).contains sid then []
          else [Action.addProfile sid, Action.fetchProfiles]) = 0 := by
      split <;> rfl
    have htail : countCompletes
        (if (runTasks a.login env.now env.oracle (commentPid sid env) 0 0 env.tasks).stopped
          then []
          else [Action.storeUpdate a.login (StoreUpdate.stampLastComment env.now)]) = 0 := by
      split <;> rfl
    refine ⟨?_, ?_, ?_, ?_⟩
    · rw [autoComment_eq sid a env hcool]
      exact b2
    · rw [autoComment_eq sid a env hcool]
      dsimp only
      simp only [countCompletes_append, countCompletes_cons, hreg, htail, b3]
      simp [countCompletes, isCompleteAct]
    · intro act hmem hcomp
      rw [autoComment_eq sid a env hcool] at hmem
      dsimp only at hmem
      rcases List.mem_append.mp hmem with hX | hE
      · rcases List.mem_append.mp hX with hAB | hF
        · rcases List.mem_append.mp hAB with hA | hB
          · rw [not_mem_complete_of_zero _ (by rfl) act hA] at hcomp
            simp at hcomp
          · rw [not_mem_complete_of_zero _ hreg act hB] at hcomp
            simp at hcomp
        · rcases List.mem_cons.mp hF with hEq | hrt
          · subst hEq
            simp [isCompleteAct] at hcomp
          · exact runTasks_complete_mem a.login env.now env.oracle (commentPid sid env)
              env.tasks 0 0 act hrt hcomp
      · rw [not_mem_complete_of_zero _ htail act hE] at hcomp
        simp at hcomp
    · intro extra h10
      rw [autoComment_eq sid a env hcool] at h10
      dsimp only at h10
      have hpid : commentPid sid { env with tasks := env.tasks ++ extra } =
          commentPid sid env := rfl
      rw [autoComment_eq sid a { env with tasks := env.tasks ++ extra } hcool,
        autoComment_eq sid a env hcool]
      dsimp only
      rw [hpid,
        runTasks_reach_cap a.login env.now env.oracle (commentPid sid env) env.tasks extra
          0 0 (Or.inl h10)]

/-- Witness for C5: with twelve always-successful tasks the cycle posts
exactly 10 comments, reports exactly 10 completions, and appending one more
task changes nothing. -/
theorem c5_completion_reports_and_cap_witness :
    ((autoComment "7656" (AccountRecord.mk "alice" (some "pw") none (some "7656") none none)
        (CommentEnv.mk 0 [SteamProfile.mk "7656" 1] []
          ((List.range 12).map (fun i => Task.mk i "t" "c" i))
          (fun _ => PostResult.success))).posted = 10) ∧
    ((autoComment "7656" (AccountRecord.mk "alice" (some "pw") none (some "7656") none none)
        (CommentEnv.mk 0 [SteamProfile.mk "7656" 1] []
          ((List.range 12).map (fun i => Task.mk i "t" "c" i))
          (fun _ => PostResult.success))).posted ≤ 10) ∧
    (countCompletes
        (autoComment "7656" (AccountRecord.mk "alice" (some "pw") none (some "7656") none none)
          (CommentEnv.mk 0 [SteamProfile.mk "7656" 1] []
            ((List.range 12).map (fun i => Task.mk i "t" "c" i))
            (fun _ => PostResult.success))).trace =
      (autoComment "7656" (AccountRecord.mk "alice" (some "pw") none (some "7656") none none)
        (CommentEnv.mk 0 [SteamProfile.mk "7656" 1] []
          ((List.range 12).map (fun i => Task.mk i "t" "c" i))
          (fun _ => PostResult.success))).posted) ∧
    (autoComment "7656" (AccountRecord.mk "alice" (some "pw") none (some "7656") none none)
        { CommentEnv.mk 0 [SteamProfile.mk "7656" 1] []
            ((List.range 12).map (fun i => Task.mk i "t" "c" i))
            (fun _ => PostResult.success) with
          tasks := ((List.range 12).map (fun i => Task.mk i "t" "c" i)) ++
            [Task.mk 99 "x" "y" 3] } =
      autoComment "7656" (AccountRecord.mk "alice" (some "pw") none (some "7656") none none)
        (CommentEnv.mk 0 [SteamProfile.mk "7656" 1] []
          ((List.range 12).map (fun i => Task.mk i "t" "c" i))
          (fun _ => PostResult.success))) :=
  ⟨rfl,
    (c5_completion_reports_and_cap "7656"
      (AccountRecord.mk "alice" (some "pw") none (some "7656") none none)
      (CommentEnv.mk 0 [SteamProfile.mk "7656" 1] []
        ((List.range 12).map (fun i => Task.mk i "t" "c" i))
        (fun _ => PostResult.success))).1,
    (c5_completion_reports_and_cap "7656"
      (AccountRecord.mk "alice" (some "pw") none (some "7656") none none)
      (CommentEnv.mk 0 [SteamProfile.mk "7656" 1] []
        ((List.range 12).map (fun i => Task.mk i "t" "c" i))
        (fun _ => PostResult.success))).2.1,
    (c5_completion_reports_and_cap "7656"
      (AccountRecord.mk "alice" (some "pw") none (some "7656") none none)
      (CommentEnv.mk 0 [SteamProfile.mk "7656" 1] []
        ((List.range 12).map (fun i => Task.mk i "t" "c" i))
        (fun _ => PostResult.success))).2.2.2 [Task.mk 99 "x" "y" 3] rfl⟩

/-- Claim C8: the part_000 dispatcher normalizes each recognized
profile-list shape (bare array, or an object with a data, profiles, or
steamProfiles array field, in that priority order) to the plain sequence,
the api.js adapter unwraps a data array, and on an unrecognized shape (for
example a string response) the dispatcher returns cleanly after the
profile fetch, with no task fetch and no post attempts, aborting only this
account's cycle. -/
theorem c8_response_shape_tolerance (xs d p sp : List SteamProfile)
    (op osp : Option (List SteamProfile)) (s sid : String) (a : AccountRecord)
    (resp2 : ProfilesResponse) (tasks : List Task) (oracle : Nat → PostResult) (now : Nat)
    (hcool : cooldownActive a now = false) :
    normalizeProfiles (ProfilesResponse.arr xs) = some xs ∧
    normalizeProfiles (ProfilesResponse.obj (some d) op osp) = some d ∧
    normalizeProfiles (ProfilesResponse.obj none (some p) osp) = some p ∧
    normalizeProfiles (ProfilesResponse.obj none none (some sp)) = some sp ∧
    normalizeProfiles (ProfilesResponse.str s) = none ∧
    getSteamProfiles (ProfilesResponse.obj (some d) op osp) = ProfilesResponse.arr d ∧
    autoCommentAlt sid a now (ProfilesResponse.str s) resp2 tasks oracle =
      AltRes.mk [Action.storeUpdate a.login StoreUpdate.resetCounter, Action.fetchProfiles] 0
        AltOutcome.malformed := by
  refine ⟨rfl, rfl, rfl, rfl, rfl, rfl, ?_⟩
  simp [autoCommentAlt, hcool, normalizeProfiles]

/-- Witness for C8: a fresh account receiving a string profile response
aborts cleanly. -/
theorem c8_response_shape_tolerance_witness :
    (cooldownActive (AccountRecord.mk "alice" (some "pw") none (some "7656") none none) 0 =
      false) ∧
    (normalizeProfiles (ProfilesResponse.arr [SteamProfile.mk "7656" 1]) =
      some [SteamProfile.mk "7656" 1] ∧
    autoCommentAlt "7656" (AccountRecord.mk "alice" (some "pw") none (some "7656") none none) 0
        (ProfilesResponse.str "<html>") (ProfilesResponse.arr []) [Task.mk 5 "t" "c" 9]
        (fun _ => PostResult.success) =
      AltRes.mk [Action.storeUpdate "alice" StoreUpdate.resetCounter, Action.fetchProfiles] 0
        AltOutcome.malformed) :=
  ⟨rfl,
    (c8_response_shape_tolerance [SteamProfile.mk "7656" 1] [] [] [] none none "<html>" "7656"
      (AccountRecord.mk "alice" (some "pw") none (some "7656") none none)
      (ProfilesResponse.arr []) [Task.mk 5 "t" "c" 9] (fun _ => PostResult.success) 0 rfl).1,
    (c8_response_shape_tolerance [SteamProfile.mk "7656" 1] [] [] [] none none "<html>" "7656"
      (AccountRecord.mk "alice" (some "pw") none (some "7656") none none)
      (ProfilesResponse.arr []) [Task.mk 5 "t" "c" 9] (fun _ => PostResult.success) 0
      rfl).2.2.2.2.2.2⟩

theorem getField_setField_ne :
    ∀ (r : JObj) (k k' : String) (v : JVal), k' ≠ k →
      getField (setField r k v) k' = getField r k' := by
  intro r
  induction r with
  | nil =>
      intro k k' v h
      simp [setField, getField, Ne.symm h]
  | cons kv rest ih =>
      intro k k' v h
      by_cases hk : kv.1 = k
      · simp [setField, hk, getField, Ne.symm h]
      · simp only [setField, if_neg hk]
        by_cases hk' : kv.1 = k'
        · simp [getField, hk']
        · simp [getField, hk', ih k k' v h]

theorem assignFields_cons (r : JObj) (kv : String × JVal) (u : JObj) :
    assignFields r (kv :: u) = assignFields (setField r kv.1 kv.2) u := rfl

theorem assignFields_not_mem :
    ∀ (u : JObj) (r : JObj) (k : String), k ∉ u.map Prod.fst →
      getField (assignFields r u) k = getField r k := by
  intro u
  induction u with
  | nil =>
      intro r k h
      rfl
  | cons kv rest ih =>
      intro r k h
      have h1 : k ≠ kv.1 := by
        intro e
        exact h (by simp [e])
      have h2 : k ∉ rest.map Prod.fst := by
        intro hh
        exact h (by simp [hh])
      rw [assignFields_cons, ih (setField r kv.1 kv.2) k h2,
        getField_setField_ne r kv.1 k kv.2 h1]

theorem updStore_append :
    ∀ (store : AccStore) (login : String) (u : JObj), getAccount store login = none →
      updStore store login u = store ++ [freshRecord login u] := by
  intro store
  induction store with
  | nil =>
      intro login u h
      rfl
  | cons r rest ih =>
      intro login u h
      have hall := List.find?_eq_none.mp h
      have hr : ¬(getField r "login" == some (JVal.str login)) = true := hall r (by simp)
      have htail : getAccount rest login = none :=
        List.find?_eq_none.mpr (fun x hx => hall x (by simp [hx]))
      rw [updStore, if_neg hr, ih login u htail, List.cons_append]

theorem updStore_mid (login : String) (u : JObj) :
    ∀ (pre : AccStore) (r : JObj) (post : AccStore),
      getAccount pre login = none →
      (getField r "login" == some (JVal.str login)) = true →
      updStore (pre ++ r :: post) login u = pre ++ assignFields r u :: post := by
  intro pre
  induction pre with
  | nil =>
      intro r post h hr
      rw [List.nil_append, updStore, if_pos hr, List.nil_append]
  | cons x pre ih =>
      intro r post h hr
      have hall := List.find?_eq_none.mp h
      have hx : ¬(getField x "login" == some (JVal.str login)) = true := hall x (by simp)
      have htail : getAccount pre login = none :=
        List.find?_eq_none.mpr (fun y hy => hall y (by simp [hy]))
      rw [List.cons_append, updStore, if_neg hx, ih r post htail hr, List.cons_append]

/-- Claim C9: updateAccount is an upsert: with no record matching the
login it appends the spread literal { login, ...updates } at the end,
leaving every other record unchanged; with a matching record it assigns
the update fields onto that record in place, leaving the records around it
untouched and every field not named in the update unchanged; and in both
cases the durably written store (saveAccounts runs synchronously before
the call returns) equals the returned store. -/
theorem c9_updateAccount_upsert (store : AccStore) (login : String) (u : JObj) :
    (updateAccount store login u).2 = (updateAccount store login u).1 ∧
    (getAccount store login = none →
      (updateAccount store login u).1 = store ++ [freshRecord login u]) ∧
    (∀ (pre : AccStore) (r : JObj) (post : AccStore),
      store = pre ++ r :: post →
      getAccount pre login = none →
      getField r "login" = some (JVal.str login) →
      (updateAccount store login u).1 = pre ++ assignFields r u :: post) ∧
    (∀ (r : JObj) (k : String), k ∉ u.map Prod.fst →
      getField (assignFields r u) k = getField r k) := by
  refine ⟨rfl, ?_, ?_, ?_⟩
  · intro h
    exact updStore_append store login u h
  · intro pre r post hs hpre hr
    subst hs
    exact updStore_mid login u pre r post hpre (by simp [hr])
  · intro r k h
    exact assignFields_not_mem u r k h

/-- Witness for C9: upserting a token into a one-record store merges in
place and keeps the password field; upserting an unknown login appends. -/
theorem c9_updateAccount_upsert_witness :
    (getAccount [] "bob" = none) ∧
    ((updateAccount [] "bob" [("password", JVal.str "x")]).1 =
      [] ++ [freshRecord "bob" [("password", JVal.str "x")]]) ∧
    (([[("login", JVal.str "alice"), ("password", JVal.str "pw")]] : AccStore) =
      [] ++ [("login", JVal.str "alice"), ("password", JVal.str "pw")] :: []) ∧
    (getAccount [] "alice" = none) ∧
    (getField [("login", JVal.str "alice"), ("password", JVal.str "pw")] "login" =
      some (JVal.str "alice")) ∧
    ((updateAccount [[("login", JVal.str "alice"), ("password", JVal.str "pw")]] "alice"
        [("refreshToken", JVal.str "tk")]).1 =
      [] ++ assignFields [("login", JVal.str "alice"), ("password", JVal.str "pw")]
        [("refreshToken", JVal.str "tk")] :: []) ∧
    ("password" ∉ ([("refreshToken", JVal.str "tk")] : JObj).map Prod.fst) ∧
    (getField
        (assignFields [("login", JVal.str "alice"), ("password", JVal.str "pw")]
          [("refreshToken", JVal.str "tk")]) "password" =
      getField [("login", JVal.str "alice"), ("password", JVal.str "pw")] "password") :=
  ⟨rfl,
    (c9_updateAccount_upsert [] "bob" [("password", JVal.str "x")]).2.1 rfl,
    rfl, rfl, rfl,
    (c9_updateAccount_upsert [[("login", JVal.str "alice"), ("password", JVal.str "pw")]]
      "alice" [("refreshToken", JVal.str "tk")]).2.2.1 []
      [("login", JVal.str "alice"), ("password", JVal.str "pw")] [] rfl rfl rfl,
    by decide,
    (c9_updateAccount_upsert [[("login", JVal.str "alice"), ("password", JVal.str "pw")]]
      "alice" [("refreshToken", JVal.str "tk")]).2.2.2
      [("login", JVal.str "alice"), ("password", JVal.str "pw")] "password" (by decide)⟩

end RepBot
